import Mathlib

/-!
Verification development for the booking-automation browser extension
(Transferro).  The JavaScript sources are shallowly embedded: pure predicates
become Lean functions, the event-driven controller becomes explicit state
passing over a controller-state record together with a list of emitted
actions, and the page actor (content script) becomes a function from a list
of DOM entries to an outcome value.  Strings are Lean strings; the relevant
fragment of JavaScript string semantics (toLowerCase on ASCII, includes,
trim, falsiness of the empty string and of undefined) is embedded
explicitly.  Dates are modelled at day granularity: the config and page
strings in scope are ISO YYYY-MM-DD date-only strings, which JavaScript
Date parsing maps injectively and monotonically onto timestamps, so
comparisons of the day-floored Date values coincide with comparisons of
serial day numbers.
-/

-- =====================================================================
-- Shared value types
-- =====================================================================

/-- Status field of a PhaseResult, as produced by sendResponse in the
content script: either success or error. -/
inductive PStatus where
  | success
  | error
deriving DecidableEq, Repr

/-- Transient value returned by the Actor to the Controller. -/
structure PhaseResult where
  status : PStatus
  message : String
deriving DecidableEq, Repr

-- =====================================================================
-- JavaScript string helpers
-- =====================================================================

/-- Embedding of JavaScript toLowerCase, restricted to the ASCII fragment
used by the vehicle-class labels in scope. -/
def jsLower (s : String) : String :=
  String.mk (s.data.map Char.toLower)

/-- Helper: the first list is a prefix of the second. -/
def charsPrefix : List Char → List Char → Bool
  | [], _ => true
  | _ :: _, [] => false
  | a :: as, b :: bs => a = b && charsPrefix as bs

/-- Helper: the needle (second argument) occurs as a contiguous run in the
haystack (first argument). -/
def charsContains : List Char → List Char → Bool
  | [], needle => needle.isEmpty
  | h :: t, needle => charsPrefix needle (h :: t) || charsContains t needle

/-- Embedding of JavaScript String.prototype.includes: jsIncludes s sub is
true when sub occurs as a substring of s. -/
def jsIncludes (s sub : String) : Bool :=
  charsContains s.data sub.data

/-- Whitespace test for the trim embedding. -/
def jsIsWs (c : Char) : Bool :=
  c = ' ' || c = '\t' || c = '\n' || c = '\r'

/-- Embedding of JavaScript String.prototype.trim for the ASCII fragment in
scope: leading and trailing whitespace is removed. -/
def jsTrim (s : String) : String :=
  String.mk (((s.data.dropWhile jsIsWs).reverse.dropWhile jsIsWs).reverse)

/-- Embedding of the JavaScript truthiness test applied to an optional
string setting: undefined and the empty string are falsy. -/
def jsTruthy (o : Option String) : Bool :=
  match o with
  | none => false
  | some s => !(s == "")

-- =====================================================================
-- Date parsing and the date-range predicate (content.js isDateInRange)
-- =====================================================================

/-- Numeric value of a decimal digit character. -/
def digitVal (c : Char) : Nat := c.toNat - 48

/-- Gregorian leap-year test. -/
def isLeap (y : Nat) : Bool :=
  (y % 4 == 0 && y % 100 != 0) || y % 400 == 0

/-- Number of days in a month of a given year. -/
def daysInMonth (y m : Nat) : Nat :=
  if m = 2 then (if isLeap y then 29 else 28)
  else if m = 4 ∨ m = 6 ∨ m = 9 ∨ m = 11 then 30
  else 31

/-- Days in the months of year y strictly before month m. -/
def daysBeforeMonth (y m : Nat) : Nat :=
  (List.range (m - 1)).foldl (fun acc i => acc + daysInMonth y (i + 1)) 0

/-- Serial day number of a proleptic Gregorian calendar date.  Monotone and
injective on valid dates, so comparisons of serial numbers agree with
comparisons of the day-floored JavaScript Date timestamps. -/
def dateSerial (y m d : Nat) : Nat :=
  365 * (y - 1) + (y - 1) / 4 - (y - 1) / 100 + (y - 1) / 400
    + daysBeforeMonth y m + (d - 1)

/-- Embedding of new Date(s) followed by setHours(0,0,0,0) for the ISO
YYYY-MM-DD date-only strings in scope: none models an Invalid Date (NaN
timestamp), some n the serial day number of the local-midnight-floored
date. -/
def parseIsoDate (s : String) : Option Nat :=
  match s.data with
  | [y1, y2, y3, y4, h1, m1, m2, h2, d1, d2] =>
    if h1 = '-' && h2 = '-' && y1.isDigit && y2.isDigit && y3.isDigit
        && y4.isDigit && m1.isDigit && m2.isDigit && d1.isDigit && d2.isDigit
    then
      let y := digitVal y1 * 1000 + digitVal y2 * 100 + digitVal y3 * 10 + digitVal y4
      let m := digitVal m1 * 10 + digitVal m2
      let d := digitVal d1 * 10 + digitVal d2
      if 1 ≤ m && m ≤ 12 && 1 ≤ d && d ≤ daysInMonth y m then
        some (dateSerial y m d)
      else none
    else none
  | _ => none

/-- Embedding of isDateInRange from the content script: parse the displayed
date and the configured start date (Invalid Date makes the predicate
false); with no end date (the empty string models the absent or empty
endDate, which is falsy) require exact equality of the day-floored dates;
with an end date require the displayed date to lie in the inclusive range.
No tolerance parameter exists in the source. -/
def isDateInRange (actualDateStr startDateStr endDateStr : String) : Bool :=
  match parseIsoDate actualDateStr, parseIsoDate startDateStr with
  | some a, some st =>
    if endDateStr == "" then a == st
    else
      match parseIsoDate endDateStr with
      | some en => decide (st ≤ a) && decide (a ≤ en)
      | none => false
  | _, _ => false

-- =====================================================================
-- Page Actor: phase 6 booking match and click (two content-script
-- variants: ContentV1 without price thresholds, ContentV2 with them)
-- =====================================================================

/-- A candidate booking entry (a div.row.the_booking element) as the
content script observes it.  dateText and vehicleText are the text
contents of the .booking_date and .vehicle_class children (none when the
child is absent); payout models the span.partner_payout child: none when
the span is absent, some none when parseFloat of its text is NaN, and
some (some p) when it parses to p; onclick is the value of the onclick
attribute, none when the attribute is absent (getAttribute returns
null). -/
structure BookingEntry where
  visible : Bool
  dateText : Option String
  vehicleText : Option String
  payout : Option (Option ℚ)
  onclick : Option String
deriving Repr

/-- Outcome of one phase-6 invocation: responded carries the PhaseResult
passed to sendResponse together with the index of the clicked entry if
any; thrown marks an exception escaping the function, in which case no
response is ever sent. -/
inductive Phase6Outcome where
  | responded (r : PhaseResult) (clicked : Option Nat)
  | thrown
deriving DecidableEq, Repr

/-- True when the outcome is a success response. -/
def Phase6Outcome.isSuccess : Phase6Outcome → Bool
  | .responded ⟨PStatus.success, _⟩ _ => true
  | _ => false

/-- Embedding of the booking-entry vehicle test: the lowercased target
list contains the lowercased (already trimmed) displayed label. -/
def bookingVehicleMatch (vehicleClasses : List String) (label : String) : Bool :=
  (vehicleClasses.map jsLower).contains (jsLower label)

namespace ContentV1

/-- Loop body of phase6_clickBooking (content.js variant without price
thresholds): skip non-visible entries and entries missing the date or
vehicle child; on the first entry whose trimmed date is in range and whose
trimmed lowercased vehicle label is among the lowercased targets, read the
onclick attribute (a missing attribute is null, and null.match throws a
TypeError that escapes the function), click the entry and respond success;
if no entry qualifies respond with a descriptive error. -/
def phase6Loop (startDateStr endDateStr : String) (vehicleClasses : List String) :
    Nat → List BookingEntry → Phase6Outcome
  | _, [] => .responded ⟨PStatus.error, "No matching booking found."⟩ none
  | i, e :: rest =>
    bif !e.visible then phase6Loop startDateStr endDateStr vehicleClasses (i + 1) rest
    else
      match e.dateText, e.vehicleText with
      | some dt, some vt =>
        bif isDateInRange (jsTrim dt) startDateStr endDateStr
            && bookingVehicleMatch vehicleClasses (jsTrim vt) then
          match e.onclick with
          | none => .thrown
          | some _ => .responded ⟨PStatus.success, "Booking element clicked."⟩ (some i)
        else phase6Loop startDateStr endDateStr vehicleClasses (i + 1) rest
      | _, _ => phase6Loop startDateStr endDateStr vehicleClasses (i + 1) rest

/-- Embedding of phase6_clickBooking (content.js): an empty candidate list
is answered immediately with an error; otherwise the entries are scanned
in document order. -/
def phase6_clickBooking (startDateStr endDateStr : String)
    (vehicleClasses : List String) (dom : List BookingEntry) : Phase6Outcome :=
  bif dom.isEmpty then .responded ⟨PStatus.error, "No booking elements found."⟩ none
  else phase6Loop startDateStr endDateStr vehicleClasses 0 dom

end ContentV1

namespace ContentV2

/-- Per-entry price test of the price-checking phase-6 variant: the
threshold is looked up at the first configured class whose lowercased form
equals the displayed label; a missing payout span, a NaN payout, or an
absent threshold (a comparison with undefined is false in JavaScript) all
make the test false; otherwise the payout must reach the threshold. -/
def priceMatch (vehicleClasses : List String) (vehiclePrices : String → Option ℚ)
    (actualVehicle : String) (payout : Option (Option ℚ)) : Bool :=
  let originalVehicleName := vehicleClasses.find? (fun vc => jsLower vc == actualVehicle)
  let userPrice : Option ℚ := originalVehicleName.bind vehiclePrices
  match payout with
  | some (some p) =>
    match userPrice with
    | some t => decide (t ≤ p)
    | none => false
  | _ => false

/-- Loop body of the price-checking phase6_clickBooking variant: as in
ContentV1 but an entry is accepted only when the date, vehicle and price
tests all hold. -/
def phase6Loop (startDateStr endDateStr : String) (vehicleClasses : List String)
    (vehiclePrices : String → Option ℚ) :
    Nat → List BookingEntry → Phase6Outcome
  | _, [] => .responded ⟨PStatus.error, "No matching booking found."⟩ none
  | i, e :: rest =>
    bif !e.visible then phase6Loop startDateStr endDateStr vehicleClasses vehiclePrices (i + 1) rest
    else
      match e.dateText, e.vehicleText with
      | some dt, some vt =>
        bif isDateInRange (jsTrim dt) startDateStr endDateStr
            && (vehicleClasses.map jsLower).contains (jsLower (jsTrim vt))
            && priceMatch vehicleClasses vehiclePrices (jsLower (jsTrim vt)) e.payout then
          match e.onclick with
          | none => .thrown
          | some _ => .responded ⟨PStatus.success, "Booking element clicked."⟩ (some i)
        else phase6Loop startDateStr endDateStr vehicleClasses vehiclePrices (i + 1) rest
      | _, _ => phase6Loop startDateStr endDateStr vehicleClasses vehiclePrices (i + 1) rest

/-- Embedding of the price-checking phase6_clickBooking variant. -/
def phase6_clickBooking (startDateStr endDateStr : String)
    (vehicleClasses : List String) (vehiclePrices : String → Option ℚ)
    (dom : List BookingEntry) : Phase6Outcome :=
  bif dom.isEmpty then .responded ⟨PStatus.error, "No booking elements found."⟩ none
  else phase6Loop startDateStr endDateStr vehicleClasses vehiclePrices 0 dom

/-- The acceptance predicate one entry must satisfy to be clicked by the
price-checking variant, factored out for the statement of the loop
characterisation. -/
def entryAccepted (startDateStr endDateStr : String) (vehicleClasses : List String)
    (vehiclePrices : String → Option ℚ) (e : BookingEntry) : Bool :=
  e.visible &&
    (match e.dateText, e.vehicleText with
     | some dt, some vt =>
       isDateInRange (jsTrim dt) startDateStr endDateStr
         && (vehicleClasses.map jsLower).contains (jsLower (jsTrim vt))
         && priceMatch vehicleClasses vehiclePrices (jsLower (jsTrim vt)) e.payout
     | _, _ => false)

end ContentV2

-- =====================================================================
-- Page Actor: phase 8 injected dropdown option filter
-- =====================================================================

/-- A dropdown option of the vehicle selector as seen by the injected
phase-8 script. -/
structure SelectOption where
  text : String
  disabled : Bool
deriving DecidableEq, Repr

/-- Embedding of the phase-8 injected selection loop: for each configured
target label in order, take the first non-disabled option whose text
contains the target as a raw (case-sensitive) substring; stop at the first
target for which a match exists; none when no target matches. -/
def phase8FindOption : List String → List SelectOption → Option SelectOption
  | [], _ => none
  | t :: ts, options =>
    match options.find? (fun o => !o.disabled && jsIncludes o.text t) with
    | some o => some o
    | none => phase8FindOption ts options

-- =====================================================================
-- Safety Gate: the navigation-pattern regular expression
-- =====================================================================

/-- One single-character item of the constructed navigation pattern: a
literal character, the regex dot (any character except a line terminator),
or an optional literal character (from the s? of https?). -/
inductive RItem where
  | lit (c : Char)
  | dotAny
  | optChar (c : Char)
deriving DecidableEq, Repr

/-- JavaScript regex line terminators, which the regex dot does not
match. -/
def isLineTerm (c : Char) : Bool :=
  c = '\n' || c = '\r' || c = '\u2028' || c = '\u2029'

/-- Backtracking matcher for a list of single-character pattern items
against a character list, with prefix semantics: once the items are
exhausted the remaining characters are unconstrained.  This is the meaning
of testing an anchored pattern of such items followed by a trailing dot
star, since the dot star can match the empty string. -/
def reMatch : List RItem → List Char → Bool
  | [], _ => true
  | .lit c :: is, d :: ds => c = d && reMatch is ds
  | .lit _ :: _, [] => false
  | .dotAny :: is, d :: ds => !isLineTerm d && reMatch is ds
  | .dotAny :: _, [] => false
  | .optChar _ :: is, [] => reMatch is []
  | .optChar c :: is, d :: ds =>
    reMatch is (d :: ds) || (c = d && reMatch is ds)

/-- Literal pattern items for a character list. -/
def lits (s : List Char) : List RItem := s.map RItem.lit

/-- Pattern items produced for the configured domain string by
domain.replace(quoted dot): the JavaScript replace with a string pattern
replaces only the FIRST occurrence of the dot with an escaped (literal)
dot; every later dot stays a bare regex dot and matches any single
character.  The boolean flag records whether the replacement has already
happened.  Faithful for domains built from regex-literal characters
(letters, digits, hyphens and dots), which covers host names. -/
def domainItems : List Char → Bool → List RItem
  | [], _ => []
  | c :: cs, replaced =>
    if c = '.' then
      (if replaced then RItem.dotAny else RItem.lit '.') :: domainItems cs true
    else RItem.lit c :: domainItems cs replaced

/-- Embedding of the navigation pattern built in the tabs.onUpdated
listener: caret, http, optional s, colon slash slash, the transformed
domain, the literal new-ride path segment, then a trailing dot star (which
the prefix semantics of reMatch absorbs). -/
def urlPattern (domain : String) : List RItem :=
  lits "http".data ++ [RItem.optChar 's'] ++ lits "://".data
    ++ domainItems domain.data false ++ lits "/new-ride/".data

/-- Embedding of tab.url.match(urlPattern): with the caret anchor and no
multiline flag, a match exists exactly when the pattern matches a prefix
of the URL. -/
def urlPatternTest (domain url : String) : Bool :=
  reMatch (urlPattern domain) url.data

-- =====================================================================
-- Run Controller (background.js service-worker variant with baseTabId
-- and the randomized auto-refresh loop)
-- =====================================================================

/-- Per-run configuration submitted by the popup.  The field set is the
union of the fields the popup variants place in the start message; the
background spreads the whole object into the phase-6 message, and each
consumer reads only the fields it knows. -/
structure Config where
  startDate : String
  endDate : String
  vehicleClasses : List String
  vehiclePrices : String → Option ℚ
  phase8VehicleClasses : List String
  autoRefresh : Bool
  isDryRun : Bool

/-- In-memory controller state of the background service worker. -/
structure CtrlState where
  automationInProgress : Bool
  activeTabId : Option Nat
  baseTabId : Option Nat
  currentConfig : Config
  /-- some t models a pending auto-refresh timeout whose callback will
  reload tab t; none models no pending timer. -/
  refreshTimer : Option Nat

/-- Log level of a controller log entry. -/
inductive LogLevel where
  | info
  | error
  | success
deriving DecidableEq, Repr

/-- Externally visible controller actions: UI lifecycle notifications (the
flag is true for automation_aborted, false for automation_finished), the
audible and visual failure alarm, a tab reload, a phase command sent to
the content script in a tab, and a content-script injection into a
tab. -/
inductive CtrlAction where
  | notifyUI (aborted : Bool)
  | alarm (reason : String)
  | reloadTab (t : Nat)
  | phaseCommand (t : Option Nat) (phase : Nat)
  | inject (t : Nat)
deriving DecidableEq, Repr

/-- True for a phase command action. -/
def CtrlAction.isPhaseCmd : CtrlAction → Bool
  | .phaseCommand _ _ => true
  | _ => false

/-- True for a tab reload action. -/
def CtrlAction.isReload : CtrlAction → Bool
  | .reloadTab _ => true
  | _ => false

/-- True for an injection action. -/
def CtrlAction.isInject : CtrlAction → Bool
  | .inject _ => true
  | _ => false

/-- Embedding of resetState: cancel any pending refresh timer, flip
automationInProgress off, clear the active tab, notify the popup
(automation_aborted on error level, automation_finished otherwise), raise
the failure alarm on error level, and then, whenever the run was in
progress with autoRefresh configured and a base tab recorded, schedule a
fresh auto-refresh timer on the base tab before clearing baseTabId.  No
retry counter exists. -/
def resetState (reason : String) (level : LogLevel) (s : CtrlState) :
    CtrlState × List CtrlAction :=
  let wasInProgress := s.automationInProgress
  let doRefresh := wasInProgress && s.currentConfig.autoRefresh && s.baseTabId.isSome
  let newTimer : Option Nat := bif doRefresh then s.baseTabId else none
  ({ automationInProgress := false
     activeTabId := none
     baseTabId := none
     currentConfig := s.currentConfig
     refreshTimer := newTimer },
   [CtrlAction.notifyUI (level == LogLevel.error)]
     ++ (bif level == LogLevel.error then [CtrlAction.alarm reason] else []))

/-- Embedding of executePhase6: a stale call with the run no longer in
progress resets; otherwise the phase-6 command is sent to the active
tab. -/
def executePhase6 (s : CtrlState) : CtrlState × List CtrlAction :=
  bif !s.automationInProgress then resetState "State error in P6." LogLevel.info s
  else (s, [CtrlAction.phaseCommand s.activeTabId 6])

/-- Embedding of executePhase9. -/
def executePhase9 (s : CtrlState) : CtrlState × List CtrlAction :=
  bif !s.automationInProgress then resetState "State error in P9." LogLevel.info s
  else (s, [CtrlAction.phaseCommand s.activeTabId 9])

/-- Embedding of the phase-6 response callback: none models a transport
failure (runtime.lastError surfaced as an error result or a missing
response); a success response leaves the state unchanged (phase 8 is
triggered later by the tab listener); anything else resets with an error,
with no retry and no reload. -/
def phase6ResponseHandler (resp : Option PhaseResult) (s : CtrlState) :
    CtrlState × List CtrlAction :=
  match resp with
  | some r =>
    bif r.status == PStatus.success then (s, [])
    else resetState r.message LogLevel.error s
  | none => resetState "Phase 6 failed." LogLevel.error s

/-- Embedding of the phase9_readyToAccept message handler: a message that
arrives while no run is in progress, or from a tab other than the tracked
active tab, is discarded without any command; otherwise phase 9 is
executed. -/
def handleReadyToAccept (senderTab : Nat) (s : CtrlState) :
    CtrlState × List CtrlAction :=
  bif !s.automationInProgress || !(s.activeTabId == some senderTab) then (s, [])
  else executePhase9 s

/-- Embedding of the abortAutomation message handler: with neither a run in
progress nor a pending refresh timer the command is answered with an error
and the state is untouched; otherwise resetState runs at info level and
the command is answered with success. -/
def abortAutomation (s : CtrlState) : CtrlState × List CtrlAction × Bool :=
  bif !s.automationInProgress && s.refreshTimer.isNone then (s, [], false)
  else
    let out := resetState "Automation aborted by user." LogLevel.info s
    (out.1, out.2, true)

/-- Embedding of the url check of the startAutomation handler: a missing
tab URL fails, otherwise the URL must contain the domain as a
substring. -/
def startUrlOk (turl : Option String) (d : String) : Bool :=
  match turl with
  | some u => jsIncludes u d
  | none => false

/-- Embedding of the startAutomation handler.  Inputs beyond the state:
the submitted config, the active tab (none when the tab query returns
nothing, otherwise its id and optional URL), the stored allow-listed
domain (none when unset), and whether the script injection promise
resolves.  Any pending refresh timer is cleared first (as in the source,
even when the request is then rejected); a run already in progress is
rejected; the active tab ids are recorded before the safety checks (as in
the source); an unset or empty domain, or a tab URL that does not contain
the domain as a substring, is answered with an error response and no
injection happens; only when both checks pass is the content script
injected, and on injection success the run starts and phase 6 is
commanded. -/
def startAutomation (s : CtrlState) (cfg : Config)
    (tab : Option (Nat × Option String)) (domain : Option String)
    (injectOk : Bool) : CtrlState × List CtrlAction × Bool :=
  let s0 : CtrlState := { s with refreshTimer := none }
  bif s0.automationInProgress then (s0, [], false)
  else
    match tab with
    | none => (s0, [], false)
    | some (tid, turl) =>
      let s1 : CtrlState := { s0 with activeTabId := some tid, baseTabId := some tid }
      bif !jsTruthy domain then (s1, [], false)
      else
        let d := domain.getD ""
        bif !startUrlOk turl d then (s1, [], false)
        else
          bif injectOk then
            let s2 : CtrlState :=
              { s1 with automationInProgress := true, currentConfig := cfg }
            let p6 := executePhase6 s2
            (p6.1, CtrlAction.inject tid :: p6.2, true)
          else (s1, [CtrlAction.inject tid], false)

-- =====================================================================
-- Auto-refresh loop (scheduleNextRefresh)
-- =====================================================================

/-- Embedding of the delay computed by scheduleNextRefresh: with minSeconds
seven and maxSeconds thirty, the delay in milliseconds is the floor of
random times twenty-four plus seven, times one thousand, where random is
the Math.random draw in the half-open unit interval. -/
def randomRefreshIntervalMs (r : ℚ) : ℤ :=
  ⌊r * (30 - 7 + 1) + 7⌋ * 1000

/-- Embedding of one firing of the auto-refresh timeout: the tab is
reloaded; if the reload callback reports an error the cycle stops through
an error-level reset, otherwise scheduleNextRefresh is called again, so
exactly one next timer is pending. -/
def refreshTimerFire (tab : Nat) (reloadOk : Bool) (s : CtrlState) :
    CtrlState × List CtrlAction :=
  bif reloadOk then ({ s with refreshTimer := some tab }, [CtrlAction.reloadTab tab])
  else
    let out := resetState "Auto-refresh tab was closed or could not be accessed." LogLevel.error
      { s with refreshTimer := none }
    (out.1, CtrlAction.reloadTab tab :: out.2)

-- =====================================================================
-- Message plumbing and sample values used by concrete evaluations
-- =====================================================================

/-- Embedding of the phase-6 message round trip: executePhase6 spreads the
whole current config into the runPhase message, and the content-script
listener extracts only startDate, endDate and vehicleClasses before
calling phase6_clickBooking; every other config field, the dry-run flag
included, is dropped on the way. -/
def dispatchPhase6 (cfg : Config) (dom : List BookingEntry) : Phase6Outcome :=
  ContentV1.phase6_clickBooking cfg.startDate cfg.endDate cfg.vehicleClasses dom

/-- A concrete run configuration used by the concrete evaluations. -/
def sampleConfig : Config :=
  { startDate := "2025-06-01"
    endDate := ""
    vehicleClasses := ["Sedan"]
    vehiclePrices := fun _ => none
    phase8VehicleClasses := ["Sedan"]
    autoRefresh := false
    isDryRun := false }

/-- The sample configuration with the auto-refresh toggle on. -/
def sampleConfigAR : Config :=
  { sampleConfig with autoRefresh := true }

/-- A controller state in the middle of a run (automation in progress on
tab one, no pending timer). -/
def runningState : CtrlState :=
  { automationInProgress := true
    activeTabId := some 1
    baseTabId := some 1
    currentConfig := sampleConfig
    refreshTimer := none }

/-- The mid-run controller state for a run whose configuration has
auto-refresh enabled. -/
def runningStateAR : CtrlState :=
  { runningState with currentConfig := sampleConfigAR }

/-- An idle controller state. -/
def idleState : CtrlState :=
  { automationInProgress := false
    activeTabId := none
    baseTabId := none
    currentConfig := sampleConfig
    refreshTimer := none }

/-- A visible booking entry matching the sample configuration, with an
onclick attribute present. -/
def sampleEntry : BookingEntry :=
  { visible := true
    dateText := some "2025-06-01"
    vehicleText := some "Sedan"
    payout := some (some 100)
    onclick := some "window.open(u)" }

-- =====================================================================
-- Helper lemmas
-- =====================================================================

/-- resetState never emits a phase command. -/
theorem resetState_no_phaseCmd (reason : String) (level : LogLevel) (s : CtrlState) :
    ((resetState reason level s).2.any CtrlAction.isPhaseCmd) = false := by
  cases level <;> rfl

/-- resetState never emits a tab reload action. -/
theorem resetState_no_reload (reason : String) (level : LogLevel) (s : CtrlState) :
    ((resetState reason level s).2.any CtrlAction.isReload) = false := by
  cases level <;> rfl

/-- The state resetState leaves behind: the run is off, the tab ids are
cleared, and a fresh auto-refresh timer on the base tab is pending exactly
when the run was in progress with auto-refresh configured and a base tab
recorded. -/
theorem resetState_state (reason : String) (level : LogLevel) (s : CtrlState) :
    (resetState reason level s).1 =
      { automationInProgress := false
        activeTabId := none
        baseTabId := none
        currentConfig := s.currentConfig
        refreshTimer :=
          bif s.automationInProgress && s.currentConfig.autoRefresh && s.baseTabId.isSome
          then s.baseTabId else none } := rfl

/-- Characterisation of the price-checking phase-6 scan: provided every
entry carries an onclick attribute (so the scan cannot throw), the scan
reports success exactly when some entry satisfies the acceptance
predicate. -/
theorem phase6Loop_isSuccess (sd ed : String) (classes : List String)
    (prices : String → Option ℚ) :
    ∀ (entries : List BookingEntry),
      (∀ e ∈ entries, e.onclick.isSome = true) →
      ∀ i : Nat,
      (ContentV2.phase6Loop sd ed classes prices i entries).isSuccess =
        entries.any (ContentV2.entryAccepted sd ed classes prices) := by
  intro entries
  induction entries with
  | nil => intro _ i; simp [ContentV2.phase6Loop, Phase6Outcome.isSuccess]
  | cons e rest ih =>
    intro h i
    have hrest := ih (fun x hx => h x (List.mem_cons_of_mem _ hx))
    have he : e.onclick.isSome = true := h e (List.mem_cons_self _ _)
    obtain ⟨o, ho⟩ := Option.isSome_iff_exists.mp he
    simp only [ContentV2.phase6Loop, List.any_cons]
    cases hv : e.visible with
    | false =>
      simp only [hv, Bool.not_false, cond_true, ContentV2.entryAccepted,
        Bool.false_and, Bool.false_or]
      exact hrest (i + 1)
    | true =>
      simp only [hv, Bool.not_true, cond_false, ContentV2.entryAccepted, Bool.true_and]
      cases hdt : e.dateText with
      | none => simp only [Bool.false_or]; exact hrest (i + 1)
      | some dt =>
        cases hvt : e.vehicleText with
        | none => simp only [Bool.false_or]; exact hrest (i + 1)
        | some vt =>
          cases hc : (isDateInRange (jsTrim dt) sd ed
              && (classes.map jsLower).contains (jsLower (jsTrim vt))
              && ContentV2.priceMatch classes prices (jsLower (jsTrim vt)) e.payout) with
          | false =>
            simp only [hc, cond_false, Bool.false_or]
            exact hrest (i + 1)
          | true =>
            simp only [hc, cond_true, ho, Phase6Outcome.isSuccess, Bool.true_or]

-- =====================================================================
-- Claim theorems
-- =====================================================================

/-- C1: the claim states that with the dry-run flag enabled every
destructive click is replaced by a logged simulation and a synthesized
success.  In the code the isDryRun field of the submitted config is never
read by the background script or by any content script: the phase-6
message spread drops it, and phase6_clickBooking performs a real
bookingElement.click() whenever an entry matches.  This theorem evaluates
the code at the failing input: for either value of the dry-run flag, the
dispatched phase-6 run on a page with a matching visible entry produces
the same outcome, a real click of entry zero with a success response. -/
theorem c1_dry_run_flag_ignored :
    ∀ b : Bool,
      dispatchPhase6 { sampleConfig with isDryRun := b } [sampleEntry]
        = .responded ⟨PStatus.success, "Booking element clicked."⟩ (some 0) := by
  intro b; rfl

/-- C2 counterexample: the claim states that on an actor failure the
Controller increments a retry counter, reloads the frame and re-enters the
same awaiting state, aborting only after the counter exceeds the maximum
of three.  In the code the very first phase-6 failure response ends the
run: automationInProgress is false afterwards (the awaiting state is not
re-entered) and no reload and no phase command is issued, refuting the
claim at this concrete input. -/
theorem c2_counterexample_first_failure_aborts :
    (phase6ResponseHandler (some ⟨PStatus.error, "No matching booking found."⟩)
      runningState).1.automationInProgress = false
    ∧ (phase6ResponseHandler (some ⟨PStatus.error, "No matching booking found."⟩)
      runningState).2.any CtrlAction.isReload = false
    ∧ (phase6ResponseHandler (some ⟨PStatus.error, "No matching booking found."⟩)
      runningState).2.any CtrlAction.isPhaseCmd = false := by
  decide

/-- C2 amended: on any actor failure (an error response or a transport
failure) the Controller performs no retry at all: no retry counter exists,
the run is immediately reset with automationInProgress false, and the
failure handling issues no frame reload and no further phase command.
Zero reload attempts occur before the fatal abort; only the independent
auto-refresh loop, when configured, later reloads the base tab. -/
theorem c2_failure_never_retried :
    ∀ (s : CtrlState) (resp : Option PhaseResult),
    (∀ r, resp = some r → r.status ≠ PStatus.success) →
    (phase6ResponseHandler resp s).1.automationInProgress = false
    ∧ (phase6ResponseHandler resp s).2.any CtrlAction.isReload = false
    ∧ (phase6ResponseHandler resp s).2.any CtrlAction.isPhaseCmd = false := by
  intro s resp h
  match resp with
  | none =>
    exact ⟨rfl, resetState_no_reload _ _ _, resetState_no_phaseCmd _ _ _⟩
  | some r =>
    have hr : r.status ≠ PStatus.success := h r rfl
    have hb : (r.status == PStatus.success) = false := by
      cases hs : r.status <;> simp_all
    simp only [phase6ResponseHandler, hb, cond_false]
    exact ⟨rfl, resetState_no_reload _ _ _, resetState_no_phaseCmd _ _ _⟩

/-- C2 witness: the amended theorem applied to a transport failure in the
middle of a run. -/
theorem c2_failure_never_retried_witness :
    (phase6ResponseHandler none runningState).1.automationInProgress = false
    ∧ (phase6ResponseHandler none runningState).2.any CtrlAction.isReload = false
    ∧ (phase6ResponseHandler none runningState).2.any CtrlAction.isPhaseCmd = false :=
  c2_failure_never_retried runningState none (fun r hr => by cases hr)

/-- C3: for every start request, an unset or empty allow-listed domain, or
an active-tab URL that does not contain the domain as a substring, is
answered with an error response and causes no script injection, and an
injection only ever happens when the domain is set and nonempty and the
tab URL contains it. -/
theorem c3_start_fail_closed :
    ∀ (s : CtrlState) (cfg : Config) (tab : Option (Nat × Option String))
      (domain : Option String) (injectOk : Bool),
    (jsTruthy domain = false →
      (startAutomation s cfg tab domain injectOk).2.2 = false ∧
      (startAutomation s cfg tab domain injectOk).2.1.any CtrlAction.isInject = false)
    ∧ (∀ tid turl d, tab = some (tid, turl) → domain = some d → startUrlOk turl d = false →
      (startAutomation s cfg tab domain injectOk).2.2 = false ∧
      (startAutomation s cfg tab domain injectOk).2.1.any CtrlAction.isInject = false)
    ∧ ((startAutomation s cfg tab domain injectOk).2.1.any CtrlAction.isInject = true →
      jsTruthy domain = true ∧
      ∃ tid turl, tab = some (tid, turl) ∧ startUrlOk turl (domain.getD "") = true) := by
  intro s cfg tab domain injectOk
  cases hp : s.automationInProgress with
  | true =>
    match tab with
    | none => refine ⟨fun _ => ?_, fun tid turl d htab => ?_, fun hinj => ?_⟩ <;>
        simp_all [startAutomation]
    | some (tid, turl) => refine ⟨fun _ => ?_, fun tid' turl' d htab => ?_, fun hinj => ?_⟩ <;>
        simp_all [startAutomation]
  | false =>
    match tab with
    | none => refine ⟨fun _ => ?_, fun tid turl d htab => ?_, fun hinj => ?_⟩ <;>
        simp_all [startAutomation]
    | some (tid, turl) =>
      cases ht : jsTruthy domain with
      | false =>
        refine ⟨fun _ => ?_, fun tid' turl' d htab hdom hurl => ?_, fun hinj => ?_⟩ <;>
          simp_all [startAutomation]
      | true =>
        cases hu : startUrlOk turl (domain.getD "") with
        | false =>
          refine ⟨fun hf => ?_, fun tid' turl' d htab hdom hurl => ?_, fun hinj => ?_⟩
          · simp at hf
          · simp_all [startAutomation]
          · simp_all [startAutomation]
        | true =>
          refine ⟨fun hf => ?_, fun tid' turl' d htab hdom hurl => ?_, fun hinj => ?_⟩
          · simp at hf
          · obtain ⟨rfl, rfl⟩ : tid = tid' ∧ turl = turl' := by
              cases htab; exact ⟨rfl, rfl⟩
            subst hdom
            simp only [Option.getD_some] at hu
            rw [hu] at hurl; cases hurl
          · exact ⟨rfl, tid, turl, rfl, hu⟩

/-- C3 witness: a start request with no allow-listed domain configured is
rejected without injection. -/
theorem c3_start_fail_closed_witness :
    (startAutomation idleState sampleConfig
        (some (1, some "https://control.transfeero.com/x")) none true).2.2 = false
    ∧ (startAutomation idleState sampleConfig
        (some (1, some "https://control.transfeero.com/x")) none true).2.1.any
        CtrlAction.isInject = false :=
  (c3_start_fail_closed idleState sampleConfig
    (some (1, some "https://control.transfeero.com/x")) none true).1 rfl

/-- C4 counterexample: the claim states that after an explicit abort no new
timer is scheduled.  Aborting a run whose configuration has auto-refresh
enabled starts with no pending timer and ends with a fresh auto-refresh
timer pending on the base tab, refuting the claim at this concrete
state. -/
theorem c4_counterexample_abort_starts_refresh :
    runningStateAR.refreshTimer = none
    ∧ (abortAutomation runningStateAR).2.2 = true
    ∧ (abortAutomation runningStateAR).1.refreshTimer = some 1 := by
  decide

/-- C4 amended: after an explicit abort in any non-idle state (a run in
progress or a pending refresh timer), the command is answered with
success, inProgress is false, the active tab is cleared, the previously
pending timer is cancelled, and any in-flight actor response arriving
afterwards is discarded without issuing a further phase command — however,
when the aborted run was in progress with auto-refresh configured and a
base tab recorded, the reset schedules one fresh auto-refresh timer on the
base tab. -/
theorem c4_abort_resets_and_discards :
    ∀ s : CtrlState,
    (s.automationInProgress = true ∨ s.refreshTimer.isSome = true) →
    (abortAutomation s).2.2 = true
    ∧ (abortAutomation s).1.automationInProgress = false
    ∧ (abortAutomation s).1.activeTabId = none
    ∧ (abortAutomation s).1.refreshTimer =
        (bif s.automationInProgress && s.currentConfig.autoRefresh && s.baseTabId.isSome
         then s.baseTabId else none)
    ∧ (∀ t, (handleReadyToAccept t (abortAutomation s).1).2 = [])
    ∧ (∀ resp, (phase6ResponseHandler resp (abortAutomation s).1).2.any
        CtrlAction.isPhaseCmd = false)
    ∧ (abortAutomation s).2.1.any CtrlAction.isPhaseCmd = false := by
  intro s h
  have hguard : (!s.automationInProgress && s.refreshTimer.isNone) = false := by
    rcases h with h | h
    · simp [h]
    · cases ht : s.refreshTimer with
      | none => rw [ht] at h; simp at h
      | some t => simp [ht]
  have habort : abortAutomation s =
      ((resetState "Automation aborted by user." LogLevel.info s).1,
       (resetState "Automation aborted by user." LogLevel.info s).2, true) := by
    simp only [abortAutomation, hguard, cond_false]
  rw [habort, resetState_state]
  refine ⟨rfl, rfl, rfl, rfl, fun t => rfl, fun resp => ?_, ?_⟩
  · match resp with
    | none => exact resetState_no_phaseCmd _ _ _
    | some r =>
      cases hs : (r.status == PStatus.success) with
      | true => simp only [phase6ResponseHandler, hs, cond_true]; rfl
      | false =>
        simp only [phase6ResponseHandler, hs, cond_false]
        exact resetState_no_phaseCmd _ _ _
  · exact resetState_no_phaseCmd "Automation aborted by user." LogLevel.info s

/-- C4 witness: the amended theorem applied to the mid-run state without
auto-refresh, keeping only the closed conjuncts. -/
theorem c4_abort_resets_and_discards_witness :
    (abortAutomation runningState).2.2 = true
    ∧ (abortAutomation runningState).1.automationInProgress = false
    ∧ (abortAutomation runningState).2.1.any CtrlAction.isPhaseCmd = false :=
  ⟨(c4_abort_resets_and_discards runningState (Or.inl rfl)).1,
   (c4_abort_resets_and_discards runningState (Or.inl rfl)).2.1,
   (c4_abort_resets_and_discards runningState (Or.inl rfl)).2.2.2.2.2.2⟩

/-- C5: the claim states the navigation-pattern check accepts a URL only
when its host equals the configured domain exactly.  The pattern is built
with a string replace that escapes only the FIRST dot of the domain, so
every later dot is a bare regex dot and matches any character: the check
accepts a URL whose host is control.transfeeroxcom although the configured
domain is control.transfeero.com.  The theorem evaluates the code at the
failing input, together with an intended positive case and a
non-new-ride-path negative case. -/
theorem c5_navigation_pattern_dot_unescaped :
    urlPatternTest "control.transfeero.com" "https://control.transfeeroxcom/new-ride/a" = true
    ∧ "https://control.transfeeroxcom/new-ride/a"
        = "https://" ++ "control.transfeeroxcom" ++ "/new-ride/a"
    ∧ ("control.transfeeroxcom" ≠ "control.transfeero.com")
    ∧ urlPatternTest "control.transfeero.com" "https://control.transfeero.com/new-ride/a" = true
    ∧ urlPatternTest "control.transfeero.com" "http://control.transfeero.com/new-ride/" = true
    ∧ urlPatternTest "control.transfeero.com" "https://control.transfeero.com/other/a" = false := by
  decide

/-- C6: the claim states that a displayed date within the configured
tolerance of the start date matches.  No tolerance exists in
isDateInRange: a displayed date one day after the configured date (well
within a tolerance of one day) is rejected while the exact date is
accepted; the inclusive range behaviour with an end date does hold.  The
theorem evaluates the code at the failing input and at the boundary
inputs. -/
theorem c6_date_predicate_evaluations :
    isDateInRange "2025-06-02" "2025-06-01" "" = false
    ∧ parseIsoDate "2025-06-02" = (parseIsoDate "2025-06-01").map (· + 1)
    ∧ isDateInRange "2025-06-01" "2025-06-01" "" = true
    ∧ isDateInRange "2025-06-03" "2025-06-01" "2025-06-05" = true
    ∧ isDateInRange "2025-06-05" "2025-06-01" "2025-06-05" = true
    ∧ isDateInRange "2025-06-06" "2025-06-01" "2025-06-05" = false := by
  decide

/-- C7 counterexample: the claim states that a visible entry whose date and
vehicle class match is accepted when no minimum-price threshold is
configured for its class.  With an empty threshold table the payout
comparison against the absent threshold is false (a JavaScript comparison
with undefined), so the matching entry is rejected and the scan reports no
match, refuting the claim at this concrete input. -/
theorem c7_counterexample_no_threshold_rejected :
    ContentV2.phase6_clickBooking "2025-06-01" "" ["Sedan"] (fun _ => none) [sampleEntry]
      = .responded ⟨PStatus.error, "No matching booking found."⟩ none := by
  decide

/-- C7 amended: in the price-checking booking scan, provided every entry
carries an onclick attribute (so the scan cannot throw), the scan succeeds
exactly when some visible entry with date and vehicle children has its
date in range, its label among the configured classes, a present and
numeric payout, a threshold configured for its class, and payout at least
that threshold; in particular an entry whose class has no configured
threshold is always rejected. -/
theorem c7_price_gate_characterisation :
    ∀ (sd ed : String) (classes : List String) (prices : String → Option ℚ)
      (entries : List BookingEntry),
    (∀ e ∈ entries, e.onclick.isSome = true) →
    (ContentV2.phase6_clickBooking sd ed classes prices entries).isSuccess =
      entries.any (ContentV2.entryAccepted sd ed classes prices) := by
  intro sd ed classes prices entries h
  cases entries with
  | nil => rfl
  | cons e rest =>
    have hloop := phase6Loop_isSuccess sd ed classes prices (e :: rest) h 0
    simpa [ContentV2.phase6_clickBooking] using hloop

/-- C7 witness: the characterisation applied to a one-entry page whose
class has a configured threshold met by the payout. -/
theorem c7_price_gate_characterisation_witness :
    (ContentV2.phase6_clickBooking "2025-06-01" "" ["Sedan"]
        (fun v => bif v == "Sedan" then some 50 else none) [sampleEntry]).isSuccess =
      [sampleEntry].any (ContentV2.entryAccepted "2025-06-01" "" ["Sedan"]
        (fun v => bif v == "Sedan" then some 50 else none)) :=
  c7_price_gate_characterisation "2025-06-01" "" ["Sedan"]
    (fun v => bif v == "Sedan" then some 50 else none) [sampleEntry] (by decide)

/-- C8 counterexample: the claim states vehicle-label matching is
case-insensitive in both phases.  The phase-8 injected option filter uses
a raw substring test with no case normalisation: the target sedan in lower
case selects nothing from an option labelled Sedan, while the identical
target up to letter case selects it — although the two targets are case
variants of each other and the phase-6 booking test accepts either.  This
refutes case-insensitivity of the dropdown phase at a concrete input. -/
theorem c8_counterexample_phase8_case_sensitive :
    phase8FindOption ["sedan"] [⟨"Sedan", false⟩] = none
    ∧ phase8FindOption ["Sedan"] [⟨"Sedan", false⟩] = some ⟨"Sedan", false⟩
    ∧ jsLower "sedan" = jsLower "Sedan"
    ∧ bookingVehicleMatch ["sedan"] "Sedan" = true := by
  decide

/-- C8 amended: booking-entry matching lowercases both sides, so changing
only the letter case of the displayed label or of any configured target
never changes the phase-6 match result, and a label unrelated to every
target (distinct even after lowercasing) never matches; the dropdown
filter of phase 8 is a case-SENSITIVE substring test, and an option whose
text contains no target as a raw substring is never selected. -/
theorem c8_vehicle_matching :
    (∀ (classes classesV : List String) (l lV : String),
      List.Forall₂ (fun a b => jsLower a = jsLower b) classes classesV →
      jsLower l = jsLower lV →
      bookingVehicleMatch classes l = bookingVehicleMatch classesV lV)
    ∧ (∀ (classes : List String) (l : String),
      (∀ c ∈ classes, jsLower c ≠ jsLower l) → bookingVehicleMatch classes l = false)
    ∧ (∀ (targets : List String) (options : List SelectOption),
      (∀ t ∈ targets, ∀ o ∈ options, jsIncludes o.text t = false) →
      phase8FindOption targets options = none) := by
  refine ⟨?_, ?_, ?_⟩
  · intro classes classesV l lV hcl hl
    have hmap : classes.map jsLower = classesV.map jsLower := by
      induction hcl with
      | nil => rfl
      | cons hab _ ih => simp [hab, ih]
    simp [bookingVehicleMatch, hmap, hl]
  · intro classes l h
    induction classes with
    | nil => rfl
    | cons c cs ih =>
      have hc : (jsLower l == jsLower c) = false :=
        beq_eq_false_iff_ne.mpr (Ne.symm (h c (List.mem_cons_self _ _)))
      have ihr := ih (fun x hx => h x (List.mem_cons_of_mem _ hx))
      simp only [bookingVehicleMatch, List.map_cons, List.contains_cons, hc,
        Bool.false_or] at *
      exact ihr
  · intro targets options h
    induction targets with
    | nil => rfl
    | cons t ts ih =>
      have hfind : options.find? (fun o => !o.disabled && jsIncludes o.text t) = none := by
        rw [List.find?_eq_none]
        intro o ho
        simp [h t (List.mem_cons_self _ _) o ho]
      simp only [phase8FindOption, hfind]
      exact ih (fun x hx o ho => h x (List.mem_cons_of_mem _ hx) o ho)

/-- C8 witness: the unrelated-label conjunct applied to a label that is no
case variant of the single configured class. -/
theorem c8_vehicle_matching_witness :
    bookingVehicleMatch ["SUV"] "sedan" = false :=
  c8_vehicle_matching.2.1 ["SUV"] "sedan" (by decide)

/-- C9: the claim states all three phase operations answer exactly once
and never throw past their boundary, in particular that the booking scan
still answers when a matching entry lacks an onclick attribute.  In the
code phase6_clickBooking reads the onclick attribute of the matched entry
without a null guard and calls match on it, so a matching visible entry
without the attribute makes the function throw a TypeError before
clicking and before responding: the outcome is thrown and no PhaseResult
is ever sent.  This theorem evaluates the code at that failing input. -/
theorem c9_phase6_throws_on_missing_onclick :
    ContentV1.phase6_clickBooking "2025-06-01" "" ["Sedan"]
      [{ sampleEntry with onclick := none }] = .thrown := by
  decide

/-- C10: every delay scheduled by the auto-refresh loop is a whole number
of seconds between seven and thirty inclusive (7000 to 30000
milliseconds); the cadence is randomized, not fixed (two draws of the
random source give different delays); and each firing of the refresh
timer with a live tab issues exactly one reload and leaves exactly one
next timer pending on that tab. -/
theorem c10_refresh_delay :
    (∀ r : ℚ, 0 ≤ r → r < 1 →
      ∃ n : ℤ, 7 ≤ n ∧ n ≤ 30 ∧ randomRefreshIntervalMs r = n * 1000)
    ∧ randomRefreshIntervalMs 0 ≠ randomRefreshIntervalMs (1/2)
    ∧ (∀ (tab : Nat) (s : CtrlState),
      (refreshTimerFire tab true s).1.refreshTimer = some tab
      ∧ (refreshTimerFire tab true s).2 = [CtrlAction.reloadTab tab]) := by
  refine ⟨?_, ?_, ?_⟩
  · intro r h0 h1
    refine ⟨⌊r * (30 - 7 + 1) + 7⌋, ?_, ?_, rfl⟩
    · have : ((7 : ℤ) : ℚ) ≤ r * (30 - 7 + 1) + 7 := by push_cast; nlinarith
      exact Int.le_floor.mpr this
    · have hlt : r * (30 - 7 + 1) + 7 < ((31 : ℤ) : ℚ) := by push_cast; nlinarith
      have := Int.floor_lt.mpr hlt
      omega
  · norm_num [randomRefreshIntervalMs]
  · intro tab s
    exact ⟨rfl, rfl⟩

/-- C10 witness: the delay-bounds conjunct applied to a concrete draw of
one third. -/
theorem c10_refresh_delay_witness :
    ∃ n : ℤ, 7 ≤ n ∧ n ≤ 30 ∧ randomRefreshIntervalMs (1/3) = n * 1000 :=
  c10_refresh_delay.1 (1/3) (by norm_num) (by norm_num)
